import Mathlib

/-!
Verification of the target-position reconciliation engine
(`tqsdk/lib/target_pos_task.py`) as a shallow embedding.

Positions and volumes are modelled as `Int`; IEEE-754 NaN-able prices are
modelled as `Option Int` (`none` = NaN), following the NaN-as-Option design
note of the specification. Asynchronous observation loops are modelled as
recursive functions over the list of diff-feed snapshots they would receive.
-/

/-- A live order as seen through the diff feed inside a `Position.orders`
map: only the fields read by `TargetPosTask._get_order`. -/
structure PosOrder where
  volume_left : Int
  is_dead : Bool
  offset : String
  direction : String
deriving DecidableEq, Repr

/-- The position object fields read by `TargetPosTask._get_order`. -/
structure Position where
  pos : Int
  pos_long : Int
  pos_short : Int
  pos_long_today : Int
  pos_short_today : Int
  pos_long_his : Int
  pos_short_his : Int
  orders : List PosOrder
deriving DecidableEq, Repr

/-- `sum([order.volume_left for order in self._pos.orders.values() if
not order.is_dead and order.offset == order_offset and
order.direction == order_dir])` (SHFE/INE branches of `_get_order`). -/
def frozenOffsetDir (pos : Position) (order_offset order_dir : String) : Int :=
  ((pos.orders.filter
      (fun o => !o.is_dead && o.offset == order_offset && o.direction == order_dir)).map
    (fun o => o.volume_left)).sum

/-- `pending_frozen + sum([order.volume_left for order in
self._pos.orders.values() if not order.is_dead and order.offset != "OPEN"
and order.direction == order_dir])` (non-SHFE/INE branches of `_get_order`). -/
def frozenNonOpen (pos : Position) (order_dir : String) (pending_frozen : Int) : Int :=
  pending_frozen +
    ((pos.orders.filter
        (fun o => !o.is_dead && o.offset != "OPEN" && o.direction == order_dir)).map
      (fun o => o.volume_left)).sum

/-- `order_dir = "BUY" if vol > 0 else "SELL"` in `_get_order`. -/
def dirOf (vol : Int) : String :=
  if vol > 0 then "BUY" else "SELL"

/-- `TargetPosTask._get_order(offset, vol, pending_frozen)`: given the offset
token, the signed delta `vol` and the `pending_frozen` accumulator, return
`(order_offset, order_dir, order_volume)`. `exchange` is `self._exchange`
(the part of the symbol before the dot) and `pos` is `self._pos`. -/
def _get_order (exchange : String) (pos : Position) (offset : String)
    (vol : Int) (pending_frozen : Int) : String × String × Int :=
  let order_dir := dirOf vol
  let pos_all := if vol > 0 then pos.pos_short else pos.pos_long
  if offset = "昨" then
    let order_offset := "CLOSE"
    if exchange = "SHFE" ∨ exchange = "INE" then
      let pos_all := if vol > 0 then pos.pos_short_his else pos.pos_long_his
      let frozen_volume := frozenOffsetDir pos order_offset order_dir
      (order_offset, order_dir, min |vol| (max 0 (pos_all - frozen_volume)))
    else
      let frozen_volume := frozenNonOpen pos order_dir pending_frozen
      -- 判断是否有未冻结的今仓手数: 若有则不平昨仓
      let pos_all :=
        if (if vol > 0 then pos.pos_short_today else pos.pos_long_today) - frozen_volume > 0
        then frozen_volume else pos_all
      (order_offset, order_dir, min |vol| (max 0 (pos_all - frozen_volume)))
  else if offset = "今" then
    if exchange = "SHFE" ∨ exchange = "INE" then
      let order_offset := "CLOSETODAY"
      let pos_all := if vol > 0 then pos.pos_short_today else pos.pos_long_today
      let frozen_volume := frozenOffsetDir pos order_offset order_dir
      (order_offset, order_dir, min |vol| (max 0 (pos_all - frozen_volume)))
    else
      let order_offset := "CLOSE"
      let frozen_volume := frozenNonOpen pos order_dir pending_frozen
      let pos_all := if vol > 0 then pos.pos_short_today else pos.pos_long_today
      (order_offset, order_dir, min |vol| (max 0 (pos_all - frozen_volume)))
  else if offset = "开" then
    ("OPEN", order_dir, |vol|)
  else
    ("", order_dir, 0)

example :
    _get_order "SHFE" ⟨0, 3, 0, 2, 0, 1, 0, []⟩ "昨" (-3) 0 = ("CLOSE", "SELL", 1) := by
  decide

example :
    _get_order "DCE" ⟨0, 3, 0, 2, 0, 1, 0, []⟩ "昨" (-3) 0 = ("CLOSE", "SELL", 0) := by
  decide

example :
    _get_order "DCE" ⟨0, 3, 0, 0, 0, 3, 0, []⟩ "昨" (-2) 0 = ("CLOSE", "SELL", 2) := by
  decide

example :
    _get_order "DCE" ⟨0, 3, 0, 0, 0, 3, 0, []⟩ "开" 5 0 = ("OPEN", "BUY", 5) := by
  decide

/-! ## Singleton registry (`TargetPosTaskSingleton.__call__`) -/

/-- The `price` constructor argument: `"ACTIVE"`, `"PASSIVE"`, or a
user-supplied callable. Python compares callables by identity, so a custom
function is represented by an identity tag. -/
inductive PriceSpec where
  | ACTIVE
  | PASSIVE
  | custom (fid : Nat)
deriving DecidableEq, Repr

/-- The fields of a registered `TargetPosTask` instance that
`TargetPosTaskSingleton.__call__` compares on re-construction, plus an
identity tag distinguishing instances. -/
structure TPTInstance where
  id : Nat
  offset_priority : String
  price : PriceSpec
  min_volume : Option Int
  max_volume : Option Int
deriving DecidableEq, Repr

/-- The four `raise Exception(...)` sites of `TargetPosTaskSingleton.__call__`,
each naming the offending parameter together with its old and new values. -/
inductive ConfigConflict where
  | offsetPriorityConflict (symbol : String) (oldv newv : String)
  | priceConflict (symbol : String) (oldv newv : PriceSpec)
  | minVolumeConflict (symbol : String) (oldv newv : Option Int)
  | maxVolumeConflict (symbol : String) (oldv newv : Option Int)
deriving DecidableEq, Repr

/-- `TargetPosTaskSingleton._instances` together with a fresh-identity
counter used when `super().__call__` allocates a new instance. -/
structure SingletonState where
  instances : List (String × TPTInstance)
  next_id : Nat
deriving DecidableEq, Repr

/-- `TargetPosTaskSingleton.__call__`: look up `account_key + "#" + symbol`;
if absent, construct and register a new instance; if present, verify
`offset_priority`, `price`, `min_volume`, `max_volume` in that order and
raise on the first mismatch, else return the registered instance. -/
def singletonCall (st : SingletonState) (account_key symbol : String)
    (price : PriceSpec) (offset_priority : String)
    (min_volume max_volume : Option Int) :
    Except ConfigConflict (SingletonState × TPTInstance) :=
  let key := account_key ++ "#" ++ symbol
  match st.instances.lookup key with
  | none =>
      let inst : TPTInstance :=
        ⟨st.next_id, offset_priority, price, min_volume, max_volume⟩
      .ok (⟨st.instances ++ [(key, inst)], st.next_id + 1⟩, inst)
  | some inst =>
      if inst.offset_priority ≠ offset_priority then
        .error (.offsetPriorityConflict symbol inst.offset_priority offset_priority)
      else if inst.price ≠ price then
        .error (.priceConflict symbol inst.price price)
      else if inst.min_volume ≠ min_volume then
        .error (.minVolumeConflict symbol inst.min_volume min_volume)
      else if inst.max_volume ≠ max_volume then
        .error (.maxVolumeConflict symbol inst.max_volume max_volume)
      else
        .ok (st, inst)

/-! ## Price policy (`InsertOrderUntilAllTradedTask._get_price`) and the
price monitor (`InsertOrderUntilAllTradedTask._check_price`) -/

/-- Quote fields read by `_get_price`; `none` models an IEEE-754 NaN. -/
structure Quote where
  ask_price1 : Option Int
  bid_price1 : Option Int
  last_price : Option Int
  pre_close : Option Int
deriving DecidableEq, Repr

/-- The `price` parameter as used by `_get_price`: one of the two built-in
modes or a caller-provided function of the direction. -/
inductive PriceMode where
  | ACTIVE
  | PASSIVE
  | custom (f : String → Option Int)

/-- `limit_price = price_list[i]; if limit_price != limit_price: limit_price
= fallback` — one step of the NaN fallback chain. -/
def fallback (a b : Option Int) : Option Int :=
  match a with
  | some x => some x
  | none => b

/-- `InsertOrderUntilAllTradedTask._get_price(direction)`: the custom
callable short-circuits; otherwise build `[ask1, bid1]`, reverse for SELL,
reverse again for PASSIVE, and run the NaN fallback chain through the two
touches, `last_price` and `pre_close`. -/
def _get_price (price : PriceMode) (q : Quote) (direction : String) : Option Int :=
  match price with
  | .custom f => f direction
  | _ =>
    let price_list := [q.ask_price1, q.bid_price1]
    let price_list := if direction = "SELL" then price_list.reverse else price_list
    let price_list := match price with
      | .PASSIVE => price_list.reverse
      | _ => price_list
    let limit_price := price_list.getD 0 none
    let limit_price := fallback limit_price (price_list.getD 1 none)
    let limit_price := fallback limit_price q.last_price
    fallback limit_price q.pre_close

/-- Python `new_price > order_price` where `new_price` may be NaN: a NaN
comparison is `False`. -/
def optGt (a : Option Int) (b : Int) : Bool :=
  match a with
  | none => false
  | some x => b < x

/-- Python `new_price < order_price` where `new_price` may be NaN. -/
def optLt (a : Option Int) (b : Int) : Bool :=
  match a with
  | none => false
  | some x => x < b

/-- The cancellation condition of `_check_price`:
`(self._direction == "BUY" and new_price > order_price) or
(self._direction == "SELL" and new_price < order_price)`. -/
def adverseMove (direction : String) (new_price : Option Int) (order_price : Int) : Bool :=
  (direction == "BUY" && optGt new_price order_price) ||
    (direction == "SELL" && optLt new_price order_price)

/-- `InsertOrderUntilAllTradedTask._check_price(update_chan, order_price,
order_id)`, modelled over the list of quote snapshots delivered by
`update_chan`: on each update recompute the price; on an adverse move cancel
the order and break, returning `(true, unconsumed updates)`; when the channel
is closed exit with `(false, [])` without cancelling. -/
def check_price_run (price : PriceMode) (direction : String) (order_price : Int) :
    List Quote → Bool × List Quote
  | [] => (false, [])
  | q :: rest =>
    let new_price := _get_price price q direction
    if adverseMove direction new_price order_price then (true, rest)
    else check_price_run price direction order_price rest

example :
    check_price_run .ACTIVE "BUY" 100 [⟨some 100, some 99, none, none⟩, ⟨some 101, some 99, none, none⟩, ⟨some 90, none, none, none⟩]
      = (true, [⟨some 90, none, none, none⟩]) := by
  decide

/-! ## InsertOrderTask._run: the order observation loop -/

/-- A snapshot of the order record as seen by `InsertOrderTask._run`
between two awaits; `trade_records` maps trade ids to trade volumes. -/
structure OrderSnap where
  status : String
  direction : String
  volume_orign : Int
  volume_left : Int
  trade_records : List (Nat × Int)
deriving DecidableEq, Repr

/-- `sum([trade.volume for trade in order.trade_records.values()])`. -/
def tradeSum (o : OrderSnap) : Int :=
  (o.trade_records.map (fun tr => tr.2)).sum

/-- The `while` guard of `InsertOrderTask._run`:
`order.status != "FINISHED" or (order.volume_orign - order.volume_left) !=
sum([trade.volume for trade in order.trade_records.values()])`. -/
def loopCont (o : OrderSnap) : Bool :=
  o.status != "FINISHED" || (o.volume_orign - o.volume_left != tradeSum o)

/-- The mutable locals of `InsertOrderTask._run` together with the messages
it has emitted so far on its three channels. -/
structure InsertRunState where
  last_order : OrderSnap
  last_left : Int
  all_trades_id : List Nat
  trade_sent : List Int
  trade_objs_sent : List (Nat × Int)
  order_sent : List OrderSnap
deriving DecidableEq, Repr

/-- `if order.volume_left != last_left:` — record the new `last_left` and,
when a trade channel is present, emit the signed traded delta
(`vol if order.direction == "BUY" else -vol`). -/
def stepTrade (has_trade_chan : Bool) (st : InsertRunState) (u : OrderSnap) :
    InsertRunState :=
  if u.volume_left != st.last_left then
    let vol := st.last_left - u.volume_left
    { st with
      last_left := u.volume_left,
      trade_sent := st.trade_sent ++
        (if has_trade_chan then [if u.direction == "BUY" then vol else -vol] else []) }
  else st

/-- `if self._trade_objs_chan:` — emit every trade id newly appearing in
`order.trade_records` and add it to `all_trades_id`. -/
def stepTradeObjs (has_trade_objs_chan : Bool) (st : InsertRunState) (u : OrderSnap) :
    InsertRunState :=
  if has_trade_objs_chan then
    let rest_trades := u.trade_records.filter
      (fun tr => !st.all_trades_id.contains tr.1)
    { st with
      trade_objs_sent := st.trade_objs_sent ++ rest_trades,
      all_trades_id := st.all_trades_id ++ rest_trades.map (fun tr => tr.1) }
  else st

/-- `if order != last_order:` — take a fresh copy and emit it on the order
channel. -/
def stepOrderChan (st : InsertRunState) (u : OrderSnap) : InsertRunState :=
  if u != st.last_order then
    { st with last_order := u, order_sent := st.order_sent ++ [u] }
  else st

/-- One iteration body of the observation loop of `InsertOrderTask._run`,
run after `await update_chan.recv()` resolved with the order now showing
snapshot `u`. -/
def insertStep (has_trade_chan has_trade_objs_chan : Bool)
    (st : InsertRunState) (u : OrderSnap) : InsertRunState :=
  stepOrderChan (stepTradeObjs has_trade_objs_chan (stepTrade has_trade_chan st u) u) u

/-- The observation loop of `InsertOrderTask._run` over the list of order
snapshots the diff feed will deliver: while the guard holds, await the next
snapshot and run the body; `none` models the task blocking forever because
the feed has no further update; `some (o, st)` is the order and channel
state at loop exit. -/
def insertLoop (has_trade_chan has_trade_objs_chan : Bool) :
    List OrderSnap → OrderSnap → InsertRunState → Option (OrderSnap × InsertRunState)
  | [], o, st => if loopCont o then none else some (o, st)
  | u :: rest, o, st =>
    if loopCont o then
      insertLoop has_trade_chan has_trade_objs_chan rest u
        (insertStep has_trade_chan has_trade_objs_chan st u)
    else some (o, st)

/-- The freshly inserted order returned by `api.insert_order(...)`: status
`ALIVE`, nothing filled, no trades yet. -/
def initOrder (direction : String) (volume : Int) : OrderSnap :=
  ⟨"ALIVE", direction, volume, volume, []⟩

/-- `InsertOrderTask._run` for a task of direction `direction` and volume
`volume`: insert the order, initialise `last_order`/`last_left`/
`all_trades_id`, emit the initial order copy, then run the observation
loop over `updates`. -/
def insertRun (has_trade_chan has_trade_objs_chan : Bool)
    (direction : String) (volume : Int) (updates : List OrderSnap) :
    Option (OrderSnap × InsertRunState) :=
  let o := initOrder direction volume
  insertLoop has_trade_chan has_trade_objs_chan updates o
    ⟨o, volume, [], [], [], [o]⟩

example :
    (insertRun true false "BUY" 2
        [⟨"ALIVE", "BUY", 2, 1, [(0, 1)]⟩, ⟨"FINISHED", "BUY", 2, 0, [(0, 1), (1, 1)]⟩]).map
      (fun r => (r.1.volume_left, r.2.trade_sent))
      = some (0, [1, 1]) := by
  decide

/-! ## Child-order volume choice (`InsertOrderUntilAllTradedTask._run`) -/

/-- Python truthiness of the optional `min_volume`/`max_volume` fields:
`None` and `0` are falsy. -/
def truthyVol (v : Option Int) : Bool :=
  match v with
  | none => false
  | some x => x != 0

/-- The `this_volume` computation in the repricing loop of
`InsertOrderUntilAllTradedTask._run`: `if self._min_volume and
self._max_volume and self._volume >= self._max_volume: this_volume =
utils.RD.randint(self._min_volume, self._max_volume) else: this_volume =
self._volume`. The random generator is abstracted as the oracle `randint`. -/
def pickThisVolume (min_volume max_volume : Option Int) (volume : Int)
    (randint : Int → Int → Int) : Int :=
  if truthyVol min_volume && truthyVol max_volume
      && volume ≥ max_volume.getD 0 then
    randint (min_volume.getD 0) (max_volume.getD 0)
  else
    volume

/-! ## TargetPosTask.set_target_volume -/

/-- Externally visible state of a `TargetPosTask`: whether its main task is
done, and the latest-only slot of `self._pos_chan` (the unread latest
value, if any). -/
structure TPTState where
  task_done : Bool
  pos_chan : Option Int
deriving DecidableEq, Repr

/-- The error surfaced by `set_target_volume` on a finished task. -/
inductive TPTError where
  | terminated
deriving DecidableEq, Repr

/-- `TargetPosTask.set_target_volume(volume)`: raise when
`self._task.done()`, otherwise `self._pos_chan.send_nowait(int(volume))`
(latest-only: the slot is overwritten). Returns the raised error, if any,
and the resulting state. -/
def set_target_volume (st : TPTState) (volume : Int) : Option TPTError × TPTState :=
  if st.task_done then (some .terminated, st)
  else (none, { st with pos_chan := some volume })

/-! ## TargetPosTask._target_pos_task: one target's dispatch walk -/

/-- An order handed to a spawned `InsertOrderUntilAllTradedTask`. -/
structure SpawnedOrder where
  order_offset : String
  order_dir : String
  order_volume : Int
deriving DecidableEq, Repr

/-- The loop state of the dispatch walk inside `_target_pos_task`:
`delta_volume`, `pending_forzen` (sic), the live wave `all_tasks`, plus
bookkeeping of which tasks have been awaited at barriers and of every task
ever spawned for this target. -/
structure DispatchState where
  delta : Int
  pending_frozen : Int
  all_tasks : List SpawnedOrder
  awaited : List SpawnedOrder
  spawned : List SpawnedOrder
deriving DecidableEq, Repr

/-- One token of `for each_priority in self._offset_priority + ","`: a comma
awaits `gather(*[each._task for each in all_tasks])`, resets
`pending_forzen` and clears the wave; any other token runs `_get_order`,
skips zero volumes, accumulates `pending_forzen` for non-OPEN orders,
spawns the task and decrements `delta_volume` by the signed volume. -/
def dispatch_step (exchange : String) (pos : Position) (st : DispatchState)
    (c : Char) : DispatchState :=
  if c = ',' then
    { st with
      pending_frozen := 0,
      all_tasks := [],
      awaited := st.awaited ++ st.all_tasks }
  else
    let r := _get_order exchange pos (String.singleton c) st.delta st.pending_frozen
    let order_offset := r.1
    let order_dir := r.2.1
    let order_volume := r.2.2
    if order_volume = 0 then st
    else
      let st :=
        if order_offset ≠ "OPEN" then
          { st with pending_frozen := st.pending_frozen + order_volume }
        else st
      { st with
        all_tasks := st.all_tasks ++ [⟨order_offset, order_dir, order_volume⟩],
        spawned := st.spawned ++ [⟨order_offset, order_dir, order_volume⟩],
        delta := st.delta - (if order_dir == "BUY" then order_volume else -order_volume) }

/-- The full dispatch walk for one received target: iterate
`self._offset_priority + ","` starting from `pending_forzen = 0` and an
empty wave, with `delta` the computed `target_pos - self._pos.pos`. -/
def dispatch_target (exchange : String) (pos : Position) (offset_priority : String)
    (delta : Int) : DispatchState :=
  (offset_priority ++ ",").toList.foldl (dispatch_step exchange pos)
    ⟨delta, 0, [], [], []⟩

example :
    (dispatch_target "SHFE" ⟨3, 3, 0, 2, 0, 1, 0, []⟩ "今昨,开" (-3)).spawned
      = [⟨"CLOSETODAY", "SELL", 2⟩, ⟨"CLOSE", "SELL", 1⟩] := by
  decide

example :
    (dispatch_target "DCE" ⟨0, 0, 0, 0, 0, 0, 0, []⟩ "开" 5).spawned
      = [⟨"OPEN", "BUY", 5⟩] := by
  decide

/-! ## Theorems -/

/-- In every branch of `_get_order` the returned direction is
`"BUY" if vol > 0 else "SELL"`. -/
lemma get_order_dir_eq (exchange : String) (pos : Position) (offset : String)
    (vol pending_frozen : Int) :
    (_get_order exchange pos offset vol pending_frozen).2.1 = dirOf vol := by
  unfold _get_order
  split_ifs <;> rfl

/-- Every branch of `_get_order` returns a non-negative volume. -/
lemma get_order_vol_nonneg (exchange : String) (pos : Position) (offset : String)
    (vol pending_frozen : Int) :
    0 ≤ (_get_order exchange pos offset vol pending_frozen).2.2 := by
  unfold _get_order
  split_ifs <;> simp

/-- The direction string is `"BUY"` exactly for a positive delta. -/
lemma dirOf_buy_iff (vol : Int) : (dirOf vol = "BUY") ↔ 0 < vol := by
  unfold dirOf
  split_ifs with h <;> simp [h]

/-- C1: for every offset token, signed delta and non-negative
`pending_frozen`, `_get_order` returns direction BUY iff the delta is
positive and a non-negative volume; token "开" yields volume `|delta|`, and
tokens "昨"/"今" yield `min (|delta|) (max 0 (pool - frozen))` with the pool
and the frozen sum picked by the exchange rules (SHFE/INE use the
history/today slice against same-offset live orders; other exchanges use
the aggregate position against `pending_frozen` plus live non-OPEN orders,
with the history pool collapsing to the frozen sum when unfrozen today
volume remains). -/
theorem C1_get_order_decomposition (exchange : String) (pos : Position)
    (vol pending_frozen : Int) (hpf : 0 ≤ pending_frozen) :
    (∀ offset : String,
      ((_get_order exchange pos offset vol pending_frozen).2.1 = "BUY" ↔ 0 < vol) ∧
      0 ≤ (_get_order exchange pos offset vol pending_frozen).2.2) ∧
    (_get_order exchange pos "开" vol pending_frozen).2.2 = |vol| ∧
    ((exchange = "SHFE" ∨ exchange = "INE") →
      (_get_order exchange pos "昨" vol pending_frozen).2.2 =
        min |vol| (max 0 ((if 0 < vol then pos.pos_short_his else pos.pos_long_his) -
          frozenOffsetDir pos "CLOSE" (dirOf vol))) ∧
      (_get_order exchange pos "今" vol pending_frozen).2.2 =
        min |vol| (max 0 ((if 0 < vol then pos.pos_short_today else pos.pos_long_today) -
          frozenOffsetDir pos "CLOSETODAY" (dirOf vol)))) ∧
    (¬(exchange = "SHFE" ∨ exchange = "INE") →
      (_get_order exchange pos "昨" vol pending_frozen).2.2 =
        min |vol| (max 0
          ((if (if 0 < vol then pos.pos_short_today else pos.pos_long_today) -
                frozenNonOpen pos (dirOf vol) pending_frozen > 0
            then frozenNonOpen pos (dirOf vol) pending_frozen
            else if 0 < vol then pos.pos_short else pos.pos_long) -
            frozenNonOpen pos (dirOf vol) pending_frozen)) ∧
      (_get_order exchange pos "今" vol pending_frozen).2.2 =
        min |vol| (max 0 ((if 0 < vol then pos.pos_short_today else pos.pos_long_today) -
          frozenNonOpen pos (dirOf vol) pending_frozen))) := by
  refine ⟨fun offset => ⟨?_, get_order_vol_nonneg ..⟩, ?_, fun h => ⟨?_, ?_⟩, fun h => ⟨?_, ?_⟩⟩
  · rw [get_order_dir_eq]
    exact dirOf_buy_iff vol
  · simp [_get_order]
  · simp [_get_order, if_pos h]
  · simp [_get_order, if_pos h]
  · simp only [_get_order, if_neg h]
    norm_num
  · simp [_get_order, if_neg h]

/-- C1 witness: the decomposition at a concrete SHFE input. -/
theorem C1_get_order_decomposition_witness :
    (_get_order "SHFE" ⟨0, 3, 0, 2, 0, 1, 0, []⟩ "开" (-3) 0).2.2 = |(-3 : Int)| :=
  (C1_get_order_decomposition "SHFE" ⟨0, 3, 0, 2, 0, 1, 0, []⟩ (-3) 0 (by decide)).2.1

/-- C5: on a non-SHFE/INE exchange, when the same-direction today position
strictly exceeds the frozen sum (`pending_frozen` plus live non-OPEN
same-direction `volume_left`), `_get_order` on the history token "昨"
returns order volume 0, regardless of the delta. -/
theorem C5_history_close_skipped (exchange : String) (pos : Position)
    (vol pending_frozen : Int)
    (hs : exchange ≠ "SHFE") (hi : exchange ≠ "INE")
    (htoday : (if 0 < vol then pos.pos_short_today else pos.pos_long_today) -
        frozenNonOpen pos (dirOf vol) pending_frozen > 0) :
    (_get_order exchange pos "昨" vol pending_frozen).2.2 = 0 := by
  have h : ¬(exchange = "SHFE" ∨ exchange = "INE") := by
    rintro (h | h) <;> [exact hs h; exact hi h]
  simp only [_get_order, if_neg h]
  rw [if_pos htoday]
  simp

/-- C5 witness: closing the history slice on DCE while 3 lots of unfrozen
today position exist proposes volume 0. -/
theorem C5_history_close_skipped_witness :
    (_get_order "DCE" ⟨3, 3, 0, 3, 0, 0, 0, []⟩ "昨" (-3) 0).2.2 = 0 :=
  C5_history_close_skipped "DCE" ⟨3, 3, 0, 3, 0, 0, 0, []⟩ (-3) 0
    (by decide) (by decide) (by decide)

/-- C2: re-constructing a `TargetPosTask` for a registered key with
field-by-field identical `offset_priority`, `price`, `min_volume` and
`max_volume` returns the registered instance and leaves the registry (and
the fresh-instance counter) untouched; any mismatch raises a conflict
error naming the first offending parameter in check order together with its
old and new values. -/
theorem C2_singleton_construction (st : SingletonState) (account_key symbol : String)
    (price : PriceSpec) (offset_priority : String) (min_volume max_volume : Option Int)
    (inst : TPTInstance)
    (hreg : st.instances.lookup (account_key ++ "#" ++ symbol) = some inst) :
    (inst.offset_priority = offset_priority ∧ inst.price = price ∧
        inst.min_volume = min_volume ∧ inst.max_volume = max_volume →
      singletonCall st account_key symbol price offset_priority min_volume max_volume
        = .ok (st, inst)) ∧
    (inst.offset_priority ≠ offset_priority →
      singletonCall st account_key symbol price offset_priority min_volume max_volume
        = .error (.offsetPriorityConflict symbol inst.offset_priority offset_priority)) ∧
    (inst.offset_priority = offset_priority → inst.price ≠ price →
      singletonCall st account_key symbol price offset_priority min_volume max_volume
        = .error (.priceConflict symbol inst.price price)) ∧
    (inst.offset_priority = offset_priority → inst.price = price →
        inst.min_volume ≠ min_volume →
      singletonCall st account_key symbol price offset_priority min_volume max_volume
        = .error (.minVolumeConflict symbol inst.min_volume min_volume)) ∧
    (inst.offset_priority = offset_priority → inst.price = price →
        inst.min_volume = min_volume → inst.max_volume ≠ max_volume →
      singletonCall st account_key symbol price offset_priority min_volume max_volume
        = .error (.maxVolumeConflict symbol inst.max_volume max_volume)) := by
  refine ⟨?_, ?_, ?_, ?_, ?_⟩ <;> intros <;>
    simp_all [singletonCall, hreg]

/-- C2 witness: a second construction with a different `price` on a
one-entry registry raises the price conflict carrying both values. -/
theorem C2_singleton_construction_witness :
    singletonCall ⟨[("acct#SHFE.rb2110", ⟨0, "今昨,开", .ACTIVE, none, none⟩)], 1⟩
        "acct" "SHFE.rb2110" .PASSIVE "今昨,开" none none
      = .error (.priceConflict "SHFE.rb2110" .ACTIVE .PASSIVE) := by
  have h := C2_singleton_construction
    ⟨[("acct#SHFE.rb2110", ⟨0, "今昨,开", .ACTIVE, none, none⟩)], 1⟩
    "acct" "SHFE.rb2110" .PASSIVE "今昨,开" none none
    ⟨0, "今昨,开", .ACTIVE, none, none⟩ (by decide)
  exact h.2.2.1 rfl (by decide)

/-- C6: the built-in price policy picks, for ACTIVE, the opposing touch
(BUY→ask1, SELL→bid1) and, for PASSIVE, the joining touch (BUY→bid1,
SELL→ask1), in each case falling back on NaN to the other touch, then
`last_price`, then `pre_close`. -/
theorem C6_price_policy (q : Quote) :
    _get_price .ACTIVE q "BUY"
      = fallback q.ask_price1 (fallback q.bid_price1 (fallback q.last_price q.pre_close)) ∧
    _get_price .ACTIVE q "SELL"
      = fallback q.bid_price1 (fallback q.ask_price1 (fallback q.last_price q.pre_close)) ∧
    _get_price .PASSIVE q "BUY"
      = fallback q.bid_price1 (fallback q.ask_price1 (fallback q.last_price q.pre_close)) ∧
    _get_price .PASSIVE q "SELL"
      = fallback q.ask_price1 (fallback q.bid_price1 (fallback q.last_price q.pre_close)) := by
  obtain ⟨a, b, l, p⟩ := q
  refine ⟨?_, ?_, ?_, ?_⟩ <;> cases a <;> cases b <;> cases l <;> cases p <;> rfl

/-- C7: on each update the price monitor cancels its order and exits iff
the recomputed policy price moved against the resting order (BUY and
new > resting, or SELL and new < resting); otherwise it keeps looping
without cancelling, and a closed channel ends it without a cancel. -/
theorem C7_price_monitor (price : PriceMode) (direction : String) (order_price : Int)
    (q : Quote) (rest : List Quote) :
    (adverseMove direction (_get_price price q direction) order_price = true →
      check_price_run price direction order_price (q :: rest) = (true, rest)) ∧
    (adverseMove direction (_get_price price q direction) order_price = false →
      check_price_run price direction order_price (q :: rest) =
        check_price_run price direction order_price rest) ∧
    check_price_run price direction order_price [] = (false, []) ∧
    (∀ p : Int, adverseMove direction (some p) order_price = true ↔
      (direction = "BUY" ∧ order_price < p) ∨ (direction = "SELL" ∧ p < order_price)) := by
  refine ⟨fun h => ?_, fun h => ?_, rfl, fun p => ?_⟩
  · simp [check_price_run, h]
  · simp [check_price_run, h]
  · simp [adverseMove, optGt, optLt]

/-- C7 witness: ask1 rising above a resting BUY at 100 triggers the cancel
on that very update. -/
theorem C7_price_monitor_witness :
    check_price_run .ACTIVE "BUY" 100 [⟨some 101, none, none, none⟩] = (true, []) :=
  (C7_price_monitor .ACTIVE "BUY" 100 ⟨some 101, none, none, none⟩ []).1 (by decide)

/-- The loop guard of `InsertOrderTask._run` fails exactly when the status
is FINISHED and the trade accounting has caught up. -/
lemma loopCont_eq_false_iff (o : OrderSnap) :
    loopCont o = false ↔
      (o.status = "FINISHED" ∧ o.volume_orign - o.volume_left = tradeSum o) := by
  simp [loopCont]

/-- Whenever the observation loop returns, the final order snapshot
falsifies the loop guard. -/
lemma insertLoop_exit_guard (htc hto : Bool) :
    ∀ (updates : List OrderSnap) (o : OrderSnap) (st : InsertRunState)
      (of : OrderSnap) (stf : InsertRunState),
      insertLoop htc hto updates o st = some (of, stf) → loopCont of = false := by
  intro updates
  induction updates with
  | nil =>
    intro o st of stf h
    unfold insertLoop at h
    cases hc : loopCont o
    · rw [hc] at h
      simp at h
      rw [← h.1]
      exact hc
    · rw [hc] at h
      simp at h
  | cons u rest ih =>
    intro o st of stf h
    unfold insertLoop at h
    cases hc : loopCont o
    · rw [hc] at h
      simp at h
      rw [← h.1]
      exact hc
    · rw [hc] at h
      simp at h
      exact ih _ _ _ _ h

/-- The snapshot the observation loop exits on is the initial order or one
of the delivered updates. -/
lemma insertLoop_final_mem (htc hto : Bool) :
    ∀ (updates : List OrderSnap) (o : OrderSnap) (st : InsertRunState)
      (of : OrderSnap) (stf : InsertRunState),
      insertLoop htc hto updates o st = some (of, stf) → of = o ∨ of ∈ updates := by
  intro updates
  induction updates with
  | nil =>
    intro o st of stf h
    unfold insertLoop at h
    cases hc : loopCont o <;> rw [hc] at h <;> simp at h
    exact Or.inl h.1.symm
  | cons u rest ih =>
    intro o st of stf h
    unfold insertLoop at h
    cases hc : loopCont o <;> rw [hc] at h <;> simp at h
    · exact Or.inl h.1.symm
    · rcases ih _ _ _ _ h with h1 | h1
      · subst h1
        exact Or.inr (List.mem_cons_self _ _)
      · exact Or.inr (List.mem_cons_of_mem _ h1)

/-- With the guard holding and no further feed update, the loop blocks. -/
lemma insertLoop_none_of_cont (htc hto : Bool) (o : OrderSnap) (st : InsertRunState)
    (hc : loopCont o = true) : insertLoop htc hto [] o st = none := by
  unfold insertLoop
  rw [hc]
  rfl

/-- With the guard failing, the loop exits at once, consuming nothing. -/
lemma insertLoop_exit_now (htc hto : Bool) (o : OrderSnap) (st : InsertRunState)
    (hc : loopCont o = false) (updates : List OrderSnap) :
    insertLoop htc hto updates o st = some (o, st) := by
  cases updates <;> unfold insertLoop <;> rw [hc] <;> rfl

/-- C3: the observation loop of `InsertOrderTask._run` exits exactly when
both `status == FINISHED` and `volume_orign - volume_left == Σ
trade.volume` hold: at completion both hold; while either fails the loop
keeps awaiting the next update (and blocks when none comes); and once both
hold it stops without consuming further updates. -/
theorem C3_insert_order_loop_exit (htc hto : Bool) (o : OrderSnap) (st : InsertRunState) :
    (∀ (updates : List OrderSnap) (of : OrderSnap) (stf : InsertRunState),
      insertLoop htc hto updates o st = some (of, stf) →
        of.status = "FINISHED" ∧ of.volume_orign - of.volume_left = tradeSum of) ∧
    (¬(o.status = "FINISHED" ∧ o.volume_orign - o.volume_left = tradeSum o) →
      insertLoop htc hto [] o st = none) ∧
    ((o.status = "FINISHED" ∧ o.volume_orign - o.volume_left = tradeSum o) →
      ∀ updates : List OrderSnap, insertLoop htc hto updates o st = some (o, st)) := by
  refine ⟨fun updates of stf h => ?_, fun h => ?_, fun h updates => ?_⟩
  · exact (loopCont_eq_false_iff of).mp (insertLoop_exit_guard htc hto updates o st of stf h)
  · refine insertLoop_none_of_cont htc hto o st ?_
    rcases hc : loopCont o
    · exact absurd ((loopCont_eq_false_iff o).mp hc) h
    · rfl
  · exact insertLoop_exit_now htc hto o st ((loopCont_eq_false_iff o).mpr h) updates

/-- C3 witness: a fully traded FINISHED snapshot lets the loop exit at
once. -/
theorem C3_insert_order_loop_exit_witness :
    insertLoop true false [] ⟨"FINISHED", "BUY", 2, 0, [(0, 2)]⟩
        ⟨initOrder "BUY" 2, 0, [], [], [], []⟩
      = some (⟨"FINISHED", "BUY", 2, 0, [(0, 2)]⟩, ⟨initOrder "BUY" 2, 0, [], [], [], []⟩) :=
  (C3_insert_order_loop_exit true false ⟨"FINISHED", "BUY", 2, 0, [(0, 2)]⟩
    ⟨initOrder "BUY" 2, 0, [], [], [], []⟩).2.2 (by decide) []

/-- `stepTrade` always re-records the observed `volume_left`. -/
lemma stepTrade_last_left (htc : Bool) (st : InsertRunState) (u : OrderSnap) :
    (stepTrade htc st u).last_left = u.volume_left := by
  unfold stepTrade
  by_cases h : (u.volume_left != st.last_left) = true
  · rw [if_pos h]
  · rw [if_neg h]
    have he : u.volume_left = st.last_left := by simpa using h
    exact he.symm

/-- With a trade channel present, one step adds exactly the signed change
of `volume_left` to the emitted trade sum. -/
lemma stepTrade_sum (st : InsertRunState) (u : OrderSnap) :
    (stepTrade true st u).trade_sent.sum = st.trade_sent.sum +
      (if u.direction == "BUY" then st.last_left - u.volume_left
       else u.volume_left - st.last_left) := by
  unfold stepTrade
  by_cases h : (u.volume_left != st.last_left) = true
  · rw [if_pos h]
    by_cases hd : (u.direction == "BUY") = true <;> simp [hd]
  · rw [if_neg h]
    have he : u.volume_left = st.last_left := by simpa using h
    by_cases hd : (u.direction == "BUY") = true <;> simp [hd, he]

/-- The trade-objs block touches neither `last_left` nor the trade-channel
emissions. -/
lemma stepTradeObjs_keeps (hto : Bool) (st : InsertRunState) (u : OrderSnap) :
    (stepTradeObjs hto st u).last_left = st.last_left ∧
      (stepTradeObjs hto st u).trade_sent = st.trade_sent := by
  unfold stepTradeObjs
  split_ifs <;> exact ⟨rfl, rfl⟩

/-- The order-channel block touches neither `last_left` nor the
trade-channel emissions. -/
lemma stepOrderChan_keeps (st : InsertRunState) (u : OrderSnap) :
    (stepOrderChan st u).last_left = st.last_left ∧
      (stepOrderChan st u).trade_sent = st.trade_sent := by
  unfold stepOrderChan
  split_ifs <;> exact ⟨rfl, rfl⟩

/-- After one full loop body, `last_left` equals the processed snapshot's
`volume_left`. -/
lemma insertStep_last_left (htc hto : Bool) (st : InsertRunState) (u : OrderSnap) :
    (insertStep htc hto st u).last_left = u.volume_left := by
  unfold insertStep
  rw [(stepOrderChan_keeps ..).1, (stepTradeObjs_keeps ..).1, stepTrade_last_left]

/-- With a trade channel present, one full loop body adds the signed
`volume_left` change to the emitted trade sum. -/
lemma insertStep_sum (hto : Bool) (st : InsertRunState) (u : OrderSnap) :
    (insertStep true hto st u).trade_sent.sum = st.trade_sent.sum +
      (if u.direction == "BUY" then st.last_left - u.volume_left
       else u.volume_left - st.last_left) := by
  unfold insertStep
  rw [(stepOrderChan_keeps ..).2, (stepTradeObjs_keeps ..).2, stepTrade_sum]

/-- Telescoping invariant of the observation loop: the emitted trade sum
grows by exactly the signed decrease of `volume_left`, and on exit
`last_left` agrees with the final snapshot. -/
lemma insertLoop_trade_sum (hto : Bool) (d : String) :
    ∀ (updates : List OrderSnap) (o : OrderSnap) (st : InsertRunState),
      (∀ u ∈ updates, u.direction = d) →
      st.last_left = o.volume_left →
      ∀ (of : OrderSnap) (stf : InsertRunState),
        insertLoop true hto updates o st = some (of, stf) →
        stf.trade_sent.sum = st.trade_sent.sum +
            (if d == "BUY" then st.last_left - of.volume_left
             else of.volume_left - st.last_left) ∧
          stf.last_left = of.volume_left := by
  intro updates
  induction updates with
  | nil =>
    intro o st hdir hll of stf h
    unfold insertLoop at h
    cases hc : loopCont o <;> rw [hc] at h <;> simp at h
    obtain ⟨h1, h2⟩ := h
    subst h1; subst h2
    constructor
    · split_ifs <;> simp [hll]
    · exact hll
  | cons u rest ih =>
    intro o st hdir hll of stf h
    unfold insertLoop at h
    cases hc : loopCont o <;> rw [hc] at h <;> simp at h
    · obtain ⟨h1, h2⟩ := h
      subst h1; subst h2
      constructor
      · split_ifs <;> simp [hll]
      · exact hll
    · have hud : u.direction = d := hdir u (List.mem_cons_self _ _)
      have hrest : ∀ x ∈ rest, x.direction = d := fun x hx => hdir x (List.mem_cons_of_mem _ hx)
      obtain ⟨hsum, hleft⟩ := ih u (insertStep true hto st u) hrest (insertStep_last_left ..) of stf h
      refine ⟨?_, hleft⟩
      rw [hsum, insertStep_sum, insertStep_last_left, hud]
      split_ifs <;> ring

/-- C4: for an `InsertOrderTask` with a trade channel, whenever the task
completes, the sum of the signed deltas it emitted on the trade channel is
`volume_orign - volume_left` of the finished order for a BUY order, and the
negation of that for a SELL order. -/
theorem C4_trade_chan_sum (hto : Bool) (d : String) (v : Int) (updates : List OrderSnap)
    (hdir : ∀ u ∈ updates, u.direction = d)
    (horign : ∀ u ∈ updates, u.volume_orign = v)
    (of : OrderSnap) (stf : InsertRunState)
    (hrun : insertRun true hto d v updates = some (of, stf)) :
    (d = "BUY" → stf.trade_sent.sum = of.volume_orign - of.volume_left) ∧
    (d = "SELL" → stf.trade_sent.sum = -(of.volume_orign - of.volume_left)) := by
  unfold insertRun at hrun
  have horig : of.volume_orign = v := by
    rcases insertLoop_final_mem true hto updates (initOrder d v) _ of stf hrun with h1 | h1
    · rw [h1]; rfl
    · exact horign of h1
  have hsum := insertLoop_trade_sum hto d updates (initOrder d v)
    ⟨initOrder d v, v, [], [], [], [initOrder d v]⟩ hdir rfl of stf hrun
  obtain ⟨hs, _⟩ := hsum
  constructor
  · intro hb
    subst hb
    simp at hs
    rw [hs, horig]
  · intro hb
    subst hb
    simp at hs
    rw [hs, horig]
    ring

/-- C4 witness: a BUY order for 2 filled in two partial trades emits deltas
summing to `volume_orign - volume_left = 2 - 0`. -/
theorem C4_trade_chan_sum_witness : ([(1 : Int), 1].sum = (2 : Int) - 0) := by
  have h := C4_trade_chan_sum false "BUY" 2
    [⟨"ALIVE", "BUY", 2, 1, [(0, 1)]⟩, ⟨"FINISHED", "BUY", 2, 0, [(0, 1), (1, 1)]⟩]
    (by decide) (by decide)
    ⟨"FINISHED", "BUY", 2, 0, [(0, 1), (1, 1)]⟩
    ⟨⟨"FINISHED", "BUY", 2, 0, [(0, 1), (1, 1)]⟩, 0, [], [1, 1], [],
      [initOrder "BUY" 2, ⟨"ALIVE", "BUY", 2, 1, [(0, 1)]⟩,
        ⟨"FINISHED", "BUY", 2, 0, [(0, 1), (1, 1)]⟩]⟩
    (by decide)
  exact h.1 rfl

/-- C8: in the repricing loop, when both split bounds are set (validated as
`0 < min ≤ max`) and the remaining volume reaches `max_volume`, the child
order volume is the drawn integer, which lies in `[min_volume,
max_volume]`; in every other case the child volume is the remaining
volume. -/
theorem C8_split_volume (min_volume max_volume : Option Int) (volume : Int)
    (randint : Int → Int → Int) (mn mx : Int)
    (hmn : 0 < mn) (hmx : mn ≤ mx)
    (hr : mn ≤ randint mn mx ∧ randint mn mx ≤ mx) :
    ((min_volume = some mn ∧ max_volume = some mx ∧ volume ≥ mx) →
      pickThisVolume min_volume max_volume volume randint = randint mn mx ∧
      mn ≤ pickThisVolume min_volume max_volume volume randint ∧
      pickThisVolume min_volume max_volume volume randint ≤ mx) ∧
    ((min_volume = some mn ∧ max_volume = some mx ∧ volume < mx) →
      pickThisVolume min_volume max_volume volume randint = volume) ∧
    (min_volume = none → pickThisVolume min_volume max_volume volume randint = volume) ∧
    (max_volume = none → pickThisVolume min_volume max_volume volume randint = volume) := by
  refine ⟨fun ⟨h1, h2, h3⟩ => ?_, fun ⟨h1, h2, h3⟩ => ?_, fun h1 => ?_, fun h1 => ?_⟩
  · subst h1; subst h2
    have hpick : pickThisVolume (some mn) (some mx) volume randint = randint mn mx := by
      simp [pickThisVolume, truthyVol, hmn.ne', (hmn.trans_le hmx).ne', h3]
    exact ⟨hpick, hpick ▸ hr.1, hpick ▸ hr.2⟩
  · subst h1; subst h2
    simp [pickThisVolume, truthyVol, not_le.mpr h3]
  · subst h1
    simp [pickThisVolume, truthyVol]
  · subst h1
    simp [pickThisVolume, truthyVol]

/-- C8 witness: remaining 50 with bounds [2, 10] takes the drawn value
(here the oracle returning its lower bound). -/
theorem C8_split_volume_witness :
    pickThisVolume (some 2) (some 10) 50 (fun a _ => a) = 2 ∧
    (2 : Int) ≤ pickThisVolume (some 2) (some 10) 50 (fun a _ => a) ∧
    pickThisVolume (some 2) (some 10) 50 (fun a _ => a) ≤ 10 :=
  (C8_split_volume (some 2) (some 10) 50 (fun a _ => a) 2 10
    (by decide) (by decide) (by decide)).1 ⟨rfl, rfl, by decide⟩

/-- C9: `set_target_volume` raises Terminated exactly when the controller
task is done, leaving the channel untouched in that case; otherwise it
writes the integer target into the latest-only slot and raises nothing. -/
theorem C9_set_target_volume (st : TPTState) (volume : Int) :
    ((set_target_volume st volume).1 = some .terminated ↔ st.task_done = true) ∧
    (st.task_done = true → (set_target_volume st volume).2 = st) ∧
    (st.task_done = false →
      set_target_volume st volume = (none, { st with pos_chan := some volume })) := by
  by_cases h : st.task_done = true <;> simp [set_target_volume, h]

/-- C9 witness: on a live task the target 7 lands in the slot with no
error. -/
theorem C9_set_target_volume_witness :
    set_target_volume ⟨false, none⟩ 7 = (none, ⟨false, some 7⟩) :=
  (C9_set_target_volume ⟨false, none⟩ 7).2.2 rfl

/-- One dispatch token preserves "awaited plus live wave equals everything
spawned". -/
lemma dispatch_step_inv (exchange : String) (pos : Position) (c : Char)
    (st : DispatchState) (h : st.awaited ++ st.all_tasks = st.spawned) :
    (dispatch_step exchange pos st c).awaited ++ (dispatch_step exchange pos st c).all_tasks
      = (dispatch_step exchange pos st c).spawned := by
  unfold dispatch_step
  by_cases hc : c = ','
  · simp [hc, h]
  · simp only [if_neg hc]
    by_cases hz : (_get_order exchange pos (String.singleton c) st.delta st.pending_frozen).2.2 = 0
    · simpa [hz] using h
    · simp only [if_neg hz]
      by_cases ho : (_get_order exchange pos (String.singleton c) st.delta st.pending_frozen).1 ≠ "OPEN"
      · simp only [if_pos ho]
        simp [← h, List.append_assoc]
      · simp only [if_neg ho]
        simp [← h, List.append_assoc]

/-- The wave invariant holds over any token sequence. -/
lemma dispatch_foldl_inv (exchange : String) (pos : Position) :
    ∀ (l : List Char) (st : DispatchState),
      st.awaited ++ st.all_tasks = st.spawned →
      (l.foldl (dispatch_step exchange pos) st).awaited ++
          (l.foldl (dispatch_step exchange pos) st).all_tasks
        = (l.foldl (dispatch_step exchange pos) st).spawned := by
  intro l
  induction l with
  | nil => intro st h; exact h
  | cons c rest ih =>
    intro st h
    exact ih _ (dispatch_step_inv exchange pos c st h)

/-- C10: because the controller iterates `offset_priority + ","`, every
target ends on a barrier: when the dispatch walk for a target finishes, no
spawned repricing task is left un-awaited and every spawned task has been
awaited — regardless of whether the configured string itself ends in a
comma. -/
theorem C10_terminal_barrier (exchange : String) (pos : Position)
    (offset_priority : String) (delta : Int) :
    (dispatch_target exchange pos offset_priority delta).all_tasks = [] ∧
    (dispatch_target exchange pos offset_priority delta).awaited =
      (dispatch_target exchange pos offset_priority delta).spawned := by
  unfold dispatch_target
  have htl : (offset_priority ++ ",").toList = offset_priority.toList ++ [','] := by
    show (offset_priority ++ ",").data = offset_priority.data ++ [',']
    rw [String.data_append]
  rw [htl, List.foldl_append]
  set st1 := offset_priority.toList.foldl (dispatch_step exchange pos) ⟨delta, 0, [], [], []⟩ with hst1
  have hinv : st1.awaited ++ st1.all_tasks = st1.spawned :=
    dispatch_foldl_inv exchange pos _ _ (by simp)
  have hstep : List.foldl (dispatch_step exchange pos) st1 [',']
      = dispatch_step exchange pos st1 ',' := rfl
  rw [hstep]
  unfold dispatch_step
  rw [if_pos rfl]
  exact ⟨rfl, hinv⟩


